import Mathlib

/-
Verification of the makesksa image-assembly pipeline.

The development shallowly embeds the two Rust source files:
  src/lib.rs  : the build pipeline (component validation, padding,
                compression of SA2, command headers, encryption, assembly)
  src/args.rs : the CLI-to-Args conversion (hex decoding of key/IV fields,
                zero defaults, SA2 companion-field constraints)

Bytes are modelled as Nat, byte buffers as List Nat.  External crates
(bb, flate2, soft_aes) are modelled as opaque function parameters gathered
in the Externals structure; I/O is modelled by a World assigning read and
write results to each IOType source.  Machine-integer casts are explicit:
the Rust expression (len as u32) becomes u32cast len = len % 2 ^ 32.
Rust panics (Option::unwrap, expect) that the pipeline can reach through
Option::unwrap are modelled by the distinguished error BuildError.panicked.
-/

deriving instance DecidableEq for Except

namespace Makesksa

/-- SK_SIZE from src/lib.rs line 15: 64 * 1024. -/
def SK_SIZE : Nat := 64 * 1024

/-- The value u32::MAX as usize, used as the SA1/SA2 size ceiling. -/
def U32_MAX : Nat := 2 ^ 32 - 1

/-- The cast (x as u32) on a usize value. -/
def u32cast (n : Nat) : Nat := n % 2 ^ 32

/-- SKSAComponent from src/lib.rs lines 17-22. -/
inductive SKSAComponent
  | Sk
  | Sa1
  | Sa2
deriving DecidableEq, Repr

/-- Errors the build can surface.  MakeSKSAError::ComponentTooLong from
src/lib.rs lines 38-42 is the tooLong constructor; every other fallible
collaborator (reads, descriptor parse, key derivation, compression, header
serialization) surfaces through the anyhow-style external constructor.
A reachable Option::unwrap on None, which panics in Rust, is modelled as
the panicked error. -/
inductive BuildError
  | tooLong (c : SKSAComponent) (got : Nat) (max : Nat)
  | external (msg : String)
  | panicked
deriving DecidableEq, Repr

/-- Vec::resize from Rust: truncate to n when the vector is at least n
long, otherwise extend with copies of v up to length n. -/
def listResize (l : List Nat) (n : Nat) (v : Nat) : List Nat :=
  if n ≤ l.length then l.take n else l ++ List.replicate (n - l.length) v

/-- usize::next_multiple_of from Rust (for a positive divisor): the
smallest multiple of m that is greater than or equal to n. -/
def nextMultipleOf (n m : Nat) : Nat :=
  if n % m = 0 then n else n + (m - n % m)

/-- The SK padding of src/lib.rs lines 62-64: zero-extend to SK_SIZE when
shorter, leave unchanged otherwise. -/
def padSk (sk : List Nat) : List Nat :=
  if sk.length < SK_SIZE then listResize sk SK_SIZE 0 else sk

/-- The block-alignment padding of src/lib.rs lines 74 and 94:
resize to the next multiple of the block size, filling with zeroes. -/
def padAlign (blockSize : Nat) (l : List Nat) : List Nat :=
  listResize l (nextMultipleOf l.length blockSize) 0

/-- Virage2 from the bb crate, restricted to the single field the build
reads (src/lib.rs line 105). -/
structure Virage2 where
  boot_app_key : List Nat
deriving DecidableEq, Repr

/-- The argument tuple of CmdHead::new_unsigned (src/lib.rs lines 102-109
and 120-127): payload key, payload IV, boot application key, header-key
IV, payload length (a u32), and component id. -/
structure CmdHead where
  key : List Nat
  iv : List Nat
  appKey : List Nat
  keyIv : List Nat
  size : Nat
  cid : Nat
deriving DecidableEq, Repr

/-- The external collaborators of the pipeline, treated as opaque
functions exactly as the spec prescribes: the Virage2 parser and bootrom
key derivation from the bb crate, the flate2 DEFLATE encoder at
Compression::fast, the soft_aes CBC encryption primitive, the CmdHead
serializer, and the block size constant bb::BLOCK_SIZE.
Modelled from the spec: the dummyCertsCrls field stands for the
DUMMY_CERTS_CRLS blob (src/lib.rs line 46), whose backing file
src/certcrl.bin is not available; the spec describes it only as a static
embedded byte blob, constant across all builds. -/
structure Externals where
  blockSize : Nat
  virage2ReadFromBuf : List Nat → Except String Virage2
  bootromKeys : List Nat → Except String (List Nat × List Nat)
  deflateFast : List Nat → Except String (List Nat)
  aesEncCbc : List Nat → List Nat → List Nat → List Nat
  cmdHeadToBuf : CmdHead → Except String (List Nat)
  dummyCertsCrls : List Nat

/-- IOType from src/args.rs lines 13-18. -/
inductive IOType
  | Stdin
  | Stdout
  | File (path : String)
deriving DecidableEq, Repr

/-- IOType::input from src/args.rs lines 55-60. -/
def IOType.input (p : String) : IOType :=
  if p = "-" then IOType.Stdin else IOType.File p

/-- IOType.output from src/args.rs lines 62-67. -/
def IOType.output (p : String) : IOType :=
  if p = "-" then IOType.Stdout else IOType.File p

/-- The I/O environment: the bytes each source yields when read, and
whether writing to each sink succeeds.  A read or write failure is a
String message, as in the anyhow-wrapped std::io::Error. -/
structure World where
  readResult : IOType → Except String (List Nat)
  writeResult : IOType → List Nat → Except String Unit

/-- Args from src/args.rs lines 156-172, with the key/IV arrays already
decoded to byte lists. -/
structure Args where
  virage2 : IOType
  bootrom : IOType
  sk : IOType
  sa1 : IOType
  sa1_cid : Nat
  sa1_key : List Nat
  sa1_iv : List Nat
  sa1_key_iv : List Nat
  sa2 : Option IOType
  sa2_cid : Option Nat
  sa2_key : Option (List Nat)
  sa2_iv : Option (List Nat)
  sa2_key_iv : Option (List Nat)
  outfile : IOType
deriving DecidableEq, Repr

/-- Header construction for one application component, embedding
src/lib.rs lines 102-113 (and identically 120-131): build the CmdHead
with the padded length cast to u32, serialize it, append the
DUMMY_CERTS_CRLS filler and resize the result to BLOCK_SIZE with zero
fill. -/
def mkHeaderE (ext : Externals) (key iv appKey keyIv : List Nat)
    (len cid : Nat) : Except BuildError (List Nat) :=
  match ext.cmdHeadToBuf ⟨key, iv, appKey, keyIv, u32cast len, cid⟩ with
  | .error e => .error (.external e)
  | .ok buf => .ok (listResize (buf ++ ext.dummyCertsCrls) ext.blockSize 0)

/-- The SA2 preprocessing closure of src/lib.rs lines 76-98: when SA2 is
present, read it, DEFLATE-compress it, reject the compressed form when it
exceeds u32::MAX, and block-align the compressed form. -/
def processSa2 (ext : Externals) (w : World) :
    Option IOType → Except BuildError (Option (List Nat))
  | none => .ok none
  | some f =>
    match w.readResult f with
    | .error e => .error (.external e)
    | .ok raw =>
      match ext.deflateFast raw with
      | .error e => .error (.external e)
      | .ok comp =>
        if comp.length > U32_MAX then
          .error (.tooLong .Sa2 comp.length U32_MAX)
        else
          .ok (some (padAlign ext.blockSize comp))

/-- The SA2 header closure of src/lib.rs lines 117-135: when the
processed SA2 exists, unwrap the SA2 key, IV, header-key IV and CID
(each a panic when absent) and build the header over the padded SA2
length. -/
def mkSa2Cmd (ext : Externals) (args : Args) (virage2 : Virage2) :
    Option (List Nat) → Except BuildError (Option (List Nat))
  | none => .ok none
  | some sa =>
    match args.sa2_key with
    | none => .error .panicked
    | some k2 =>
      match args.sa2_iv with
      | none => .error .panicked
      | some i2 =>
        match args.sa2_key_iv with
        | none => .error .panicked
        | some ki2 =>
          match args.sa2_cid with
          | none => .error .panicked
          | some c2 =>
            match mkHeaderE ext k2 i2 virage2.boot_app_key ki2 sa.length c2 with
            | .error e => .error e
            | .ok cmd => .ok (some cmd)

/-- The SA2 encryption closure of src/lib.rs lines 137-140: when the
processed SA2 exists, unwrap the SA2 key and IV again and CBC-encrypt. -/
def encSa2 (ext : Externals) (args : Args) :
    Option (List Nat) → Except BuildError (Option (List Nat))
  | none => .ok none
  | some sa =>
    match args.sa2_key with
    | none => .error .panicked
    | some k2 =>
      match args.sa2_iv with
      | none => .error .panicked
      | some i2 => .ok (some (ext.aesEncCbc sa k2 i2))

/-- The pure pipeline of build, src/lib.rs lines 49-150: everything the
function does before the single final write.  Each Rust question-mark
propagation is an explicit match; the value returned on success is the
complete outfile byte vector assembled at lines 142-150. -/
def buildBytes (ext : Externals) (w : World) (args : Args) :
    Except BuildError (List Nat) :=
  match w.readResult args.virage2 with
  | .error e => .error (.external e)
  | .ok v2buf =>
  match ext.virage2ReadFromBuf v2buf with
  | .error e => .error (.external e)
  | .ok virage2 =>
  match w.readResult args.bootrom with
  | .error e => .error (.external e)
  | .ok bootrom =>
  match ext.bootromKeys bootrom with
  | .error e => .error (.external e)
  | .ok (sk_key, sk_iv) =>
  match w.readResult args.sk with
  | .error e => .error (.external e)
  | .ok skRaw =>
  if skRaw.length > SK_SIZE then
    .error (.tooLong .Sk skRaw.length SK_SIZE)
  else
  let sk := padSk skRaw
  match w.readResult args.sa1 with
  | .error e => .error (.external e)
  | .ok sa1Raw =>
  if sa1Raw.length > U32_MAX then
    .error (.tooLong .Sa1 sa1Raw.length U32_MAX)
  else
  let sa1 := padAlign ext.blockSize sa1Raw
  match processSa2 ext w args.sa2 with
  | .error e => .error e
  | .ok sa2 =>
  let skEnc := ext.aesEncCbc sk sk_key sk_iv
  match mkHeaderE ext args.sa1_key args.sa1_iv virage2.boot_app_key
      args.sa1_key_iv sa1.length args.sa1_cid with
  | .error e => .error e
  | .ok sa1_cmd =>
  let sa1Enc := ext.aesEncCbc sa1 args.sa1_key args.sa1_iv
  match mkSa2Cmd ext args virage2 sa2 with
  | .error e => .error e
  | .ok sa2_cmd =>
  match encSa2 ext args sa2 with
  | .error e => .error e
  | .ok sa2Enc =>
  match sa2Enc with
  | none => .ok (skEnc ++ sa1_cmd ++ sa1Enc)
  | some s2 =>
    match sa2_cmd with
    | none => .error .panicked
    | some c2 => .ok (skEnc ++ sa1_cmd ++ sa1Enc ++ c2 ++ s2)

/-- The sink records every complete blob written to the output
destination; a fresh build starts from the caller-supplied sink, and the
only write the source performs is the final one at src/lib.rs line 152. -/
structure Sink where
  written : List (List Nat)
deriving DecidableEq, Repr

/-- The whole of build (src/lib.rs lines 48-155): run the pure pipeline,
then perform the single write of the assembled image to args.outfile. -/
def build (ext : Externals) (w : World) (args : Args) (s : Sink) :
    Except BuildError Unit × Sink :=
  match buildBytes ext w args with
  | .error e => (.error e, s)
  | .ok out =>
    match w.writeResult args.outfile out with
    | .error e => (.error (.external e), s)
    | .ok _ => (.ok (), ⟨s.written ++ [out]⟩)

/-- hex::FromHexError, restricted to the kinds the [u8; 16] decoder can
produce. -/
inductive FromHexError
  | invalidHexCharacter
  | invalidStringLength
deriving DecidableEq, Repr

/-- The value of one hexadecimal digit character, as in the hex crate:
0-9, a-f and A-F; anything else is rejected. -/
def hexVal? (c : Char) : Option Nat :=
  if ('0' ≤ c ∧ c ≤ '9') then some (c.toNat - '0'.toNat)
  else if ('a' ≤ c ∧ c ≤ 'f') then some (c.toNat - 'a'.toNat + 10)
  else if ('A' ≤ c ∧ c ≤ 'F') then some (c.toNat - 'A'.toNat + 10)
  else none

/-- Decode a character list two hex digits at a time into bytes; any
non-digit or a trailing odd digit fails. -/
def decodePairs : List Char → Option (List Nat)
  | [] => some []
  | [_] => none
  | a :: b :: rest =>
    match hexVal? a with
    | none => none
    | some hi =>
      match hexVal? b with
      | none => none
      | some lo =>
        match decodePairs rest with
        | none => none
        | some bs => some ((16 * hi + lo) :: bs)

/-- hex::FromHex for [u8; 16], as invoked by from_hex in src/args.rs:
the string must be exactly 32 characters and every character a hex
digit; the result is the 16 decoded bytes. -/
def fromHexArr16 (s : String) : Except FromHexError (List Nat) :=
  if s.data.length = 2 * 16 then
    match decodePairs s.data with
    | some bs => .ok bs
    | none => .error FromHexError.invalidHexCharacter
  else .error FromHexError.invalidStringLength

/-- The pattern value.field.map(from_hex).transpose()? from src/args.rs:
decode an optional hex string, propagating a decode failure. -/
def optionFromHex (s : Option String) : Except FromHexError (Option (List Nat)) :=
  match s with
  | none => .ok none
  | some str =>
    match fromHexArr16 str with
    | .error e => .error e
    | .ok k => .ok (some k)

/-- BLANK_KEY from src/args.rs line 174: sixteen zero bytes. -/
def BLANK_KEY : List Nat := List.replicate 16 0

/-- BLANK_IV from src/args.rs line 175: sixteen zero bytes. -/
def BLANK_IV : List Nat := List.replicate 16 0

/-- The Cli structure of src/args.rs lines 100-154, before conversion:
raw path strings, the CIDs as parsed u32 values, and the optional hex
strings for every key/IV field. -/
structure Cli where
  virage2 : String
  bootrom : String
  sk : String
  sa1 : String
  sa1_cid : Nat
  sa1_key : Option String
  sa1_iv : Option String
  sa1_key_iv : Option String
  sa2 : Option String
  sa2_cid : Option Nat
  sa2_key : Option String
  sa2_iv : Option String
  sa2_key_iv : Option String
  outfile : String
deriving DecidableEq, Repr

/-- The clap requires constraints declared on Cli in src/args.rs:
sa2 requires sa2_cid (line 132), sa2_key requires sa2 (line 140) and
sa2_iv requires sa2 (line 144).  No requires attribute is declared on
sa2_key_iv (lines 147-149). -/
def cliRequiresOk (c : Cli) : Bool :=
  (!c.sa2.isSome || c.sa2_cid.isSome) &&
  (!c.sa2_key.isSome || c.sa2.isSome) &&
  (!c.sa2_iv.isSome || c.sa2.isSome)

/-- TryFrom Cli for Args, src/args.rs lines 177-260: decode each
optional hex field (first failure propagates, in declaration order),
default the SA1 fields to the blank key/IV, and when SA2 is present fill
any absent SA2 key/IV/header-key-IV with the blank value. -/
def tryFromCli (c : Cli) : Except FromHexError Args :=
  match optionFromHex c.sa1_key with
  | .error e => .error e
  | .ok k1? =>
  match optionFromHex c.sa1_iv with
  | .error e => .error e
  | .ok i1? =>
  match optionFromHex c.sa1_key_iv with
  | .error e => .error e
  | .ok ki1? =>
  match optionFromHex c.sa2_key with
  | .error e => .error e
  | .ok k2? =>
  match optionFromHex c.sa2_iv with
  | .error e => .error e
  | .ok i2? =>
  match optionFromHex c.sa2_key_iv with
  | .error e => .error e
  | .ok ki2? =>
  let sa2 := c.sa2.map IOType.input
  let sa2_key := if sa2.isSome then
      (if k2?.isNone then some BLANK_KEY else k2?) else k2?
  let sa2_iv := if sa2.isSome then
      (if i2?.isNone then some BLANK_IV else i2?) else i2?
  let sa2_key_iv := if sa2.isSome then
      (if ki2?.isNone then some BLANK_IV else ki2?) else ki2?
  .ok {
    virage2 := IOType.input c.virage2
    bootrom := IOType.input c.bootrom
    sk := IOType.input c.sk
    sa1 := IOType.input c.sa1
    sa1_cid := c.sa1_cid
    sa1_key := k1?.getD BLANK_KEY
    sa1_iv := i1?.getD BLANK_IV
    sa1_key_iv := ki1?.getD BLANK_IV
    sa2 := sa2
    sa2_cid := c.sa2_cid
    sa2_key := sa2_key
    sa2_iv := sa2_iv
    sa2_key_iv := sa2_key_iv
    outfile := IOType.output c.outfile }

/-- A parse failure is either a clap usage error (a violated requires
constraint) or a hex decode error from the conversion. -/
inductive ParseError
  | usage
  | hex (e : FromHexError)
deriving DecidableEq, Repr

/-- parse_args from src/args.rs lines 262-264: clap validates the
declared constraints, then Cli is converted into Args. -/
def parseArgs (c : Cli) : Except ParseError Args :=
  if cliRequiresOk c then
    match tryFromCli c with
    | .error e => .error (.hex e)
    | .ok args => .ok args
  else .error .usage

/-- Shared witness fixture: trivializing externals under which the
pipeline evaluates on tiny inputs. -/
def extW : Externals where
  blockSize := 4
  virage2ReadFromBuf := fun _ => .ok ⟨[]⟩
  bootromKeys := fun _ => .ok ([], [])
  deflateFast := fun l => .ok l
  aesEncCbc := fun _ _ _ => []
  cmdHeadToBuf := fun _ => .ok []
  dummyCertsCrls := []


/-- Shared witness fixture: every source reads as empty, writes succeed. -/
def wW : World where
  readResult := fun _ => .ok []
  writeResult := fun _ _ => .ok ()


/-- Shared witness fixture: arguments without SA2. -/
def argsNoSa2 : Args where
  virage2 := IOType.File ("v")
  bootrom := IOType.File ("b")
  sk := IOType.File ("sk")
  sa1 := IOType.File ("sa1")
  sa1_cid := 0
  sa1_key := BLANK_KEY
  sa1_iv := BLANK_IV
  sa1_key_iv := BLANK_IV
  sa2 := none
  sa2_cid := none
  sa2_key := none
  sa2_iv := none
  sa2_key_iv := none
  outfile := IOType.File ("o")


/-- Shared witness fixture: arguments with SA2 and all its fields. -/
def argsWithSa2 : Args where
  virage2 := IOType.File ("v")
  bootrom := IOType.File ("b")
  sk := IOType.File ("sk")
  sa1 := IOType.File ("sa1")
  sa1_cid := 0
  sa1_key := BLANK_KEY
  sa1_iv := BLANK_IV
  sa1_key_iv := BLANK_IV
  sa2 := some (IOType.File ("sa2"))
  sa2_cid := some 7
  sa2_key := some BLANK_KEY
  sa2_iv := some BLANK_IV
  sa2_key_iv := some BLANK_IV
  outfile := IOType.File ("o")


/-- Shared witness fixture: a world whose reads all fail. -/
def wErr : World where
  readResult := fun _ => .error ("boom")
  writeResult := fun _ _ => .ok ()


/-- The failing input for claim C8: a command line with no SA2 but with
the SA2 header-key IV supplied as thirty-two zero hex digits. -/
def cliKeyIvNoSa2 : Cli where
  virage2 := "v"
  bootrom := "b"
  sk := "s"
  sa1 := "a"
  sa1_cid := 0
  sa1_key := none
  sa1_iv := none
  sa1_key_iv := none
  sa2 := none
  sa2_cid := none
  sa2_key := none
  sa2_iv := none
  sa2_key_iv := some ("00000000000000000000000000000000")
  outfile := "o"


/-- The Args value the failing input converts to. -/
def argsKeyIvNoSa2 : Args where
  virage2 := IOType.File ("v")
  bootrom := IOType.File ("b")
  sk := IOType.File ("s")
  sa1 := IOType.File ("a")
  sa1_cid := 0
  sa1_key := BLANK_KEY
  sa1_iv := BLANK_IV
  sa1_key_iv := BLANK_IV
  sa2 := none
  sa2_cid := none
  sa2_key := none
  sa2_iv := none
  sa2_key_iv := some BLANK_IV
  outfile := IOType.File ("o")


/-- Witness for C9 at a concrete command line mixing supplied and
omitted fields. -/
def cliW9 : Cli where
  virage2 := "v"
  bootrom := "b"
  sk := "s"
  sa1 := "a"
  sa1_cid := 5
  sa1_key := some ("00112233445566778899aabbccddeeff")
  sa1_iv := none
  sa1_key_iv := none
  sa2 := some ("s2")
  sa2_cid := some 7
  sa2_key := none
  sa2_iv := some ("ffeeddccbbaa99887766554433221100")
  sa2_key_iv := none
  outfile := "o"


/-- The Args value cliW9 converts to. -/
def argsW9 : Args where
  virage2 := IOType.File ("v")
  bootrom := IOType.File ("b")
  sk := IOType.File ("s")
  sa1 := IOType.File ("a")
  sa1_cid := 5
  sa1_key := [0, 17, 34, 51, 68, 85, 102, 119, 136, 153, 170, 187, 204, 221, 238, 255]
  sa1_iv := BLANK_IV
  sa1_key_iv := BLANK_IV
  sa2 := some (IOType.File ("s2"))
  sa2_cid := some 7
  sa2_key := some BLANK_KEY
  sa2_iv := some [255, 238, 221, 204, 187, 170, 153, 136, 119, 102, 85, 68, 51, 34, 17, 0]
  sa2_key_iv := some BLANK_IV
  outfile := IOType.File ("o")


/-- Witness fixture for C10: a command line that parses to argsWithSa2. -/
def cliW10 : Cli where
  virage2 := "v"
  bootrom := "b"
  sk := "sk"
  sa1 := "sa1"
  sa1_cid := 0
  sa1_key := none
  sa1_iv := none
  sa1_key_iv := none
  sa2 := some ("sa2")
  sa2_cid := some 7
  sa2_key := none
  sa2_iv := none
  sa2_key_iv := none
  outfile := "o"

/-- Resizing always yields the requested length. -/
lemma listResize_length (l : List Nat) (n v : Nat) :
    (listResize l n v).length = n := by
  unfold listResize
  split
  · simp
    omega
  · simp
    omega

/-- Resizing to a length at least the current one only appends fill. -/
lemma listResize_of_le (l : List Nat) (n v : Nat) (h : l.length ≤ n) :
    listResize l n v = l ++ List.replicate (n - l.length) v := by
  unfold listResize
  split
  · have hn : n = l.length := by omega
    subst hn
    simp
  · rfl

/-- The original bytes are recovered by take after an extending resize. -/
lemma listResize_take (l : List Nat) (n v : Nat) (h : l.length ≤ n) :
    (listResize l n v).take l.length = l := by
  rw [listResize_of_le l n v h]
  simp

/-- nextMultipleOf is never smaller than its argument. -/
lemma le_nextMultipleOf (n m : Nat) : n ≤ nextMultipleOf n m := by
  unfold nextMultipleOf
  split
  · exact Nat.le_refl n
  · exact Nat.le_add_right n _

/-- nextMultipleOf produces a multiple of the divisor. -/
lemma dvd_nextMultipleOf (n m : Nat) (hm : 0 < m) : m ∣ nextMultipleOf n m := by
  unfold nextMultipleOf
  split
  · exact Nat.dvd_of_mod_eq_zero (by assumption)
  · refine ⟨n / m + 1, ?_⟩
    have hd : m * (n / m) + n % m = n := Nat.div_add_mod n m
    have hr : n % m < m := Nat.mod_lt n hm
    rw [Nat.mul_succ]
    omega

/-- nextMultipleOf is the least multiple of m that is at least n. -/
lemma nextMultipleOf_le (n m k : Nat) (hm : 0 < m) (hd : m ∣ k) (hn : n ≤ k) :
    nextMultipleOf n m ≤ k := by
  obtain ⟨j, rfl⟩ := hd
  unfold nextMultipleOf
  split
  · exact hn
  · have hdm : m * (n / m) + n % m = n := Nat.div_add_mod n m
    have hr : n % m < m := Nat.mod_lt n hm
    have hrpos : 0 < n % m := Nat.pos_of_ne_zero (by assumption)
    have hqj : n / m < j := by
      by_contra hc
      push_neg at hc
      have : m * j ≤ m * (n / m) := Nat.mul_le_mul_left m hc
      omega
    have : m * (n / m + 1) ≤ m * j := Nat.mul_le_mul_left m hqj
    rw [Nat.mul_succ] at this
    omega

/-- The block-aligned padding has length nextMultipleOf of the original. -/
lemma padAlign_length (b : Nat) (l : List Nat) :
    (padAlign b l).length = nextMultipleOf l.length b :=
  listResize_length l _ 0

/-- The block-aligned padding appends zeroes after the original bytes. -/
lemma padAlign_eq_append (b : Nat) (l : List Nat) :
    padAlign b l = l ++ List.replicate (nextMultipleOf l.length b - l.length) 0 :=
  listResize_of_le l _ 0 (le_nextMultipleOf l.length b)

/-- The SK padding appends zeroes up to SK_SIZE when not oversized. -/
lemma padSk_eq_append (sk : List Nat) (h : sk.length ≤ SK_SIZE) :
    padSk sk = sk ++ List.replicate (SK_SIZE - sk.length) 0 := by
  unfold padSk
  split
  · exact listResize_of_le sk SK_SIZE 0 h
  · have hlen : sk.length = SK_SIZE := by omega
    simp [hlen]

/-- The SK padding yields exactly SK_SIZE bytes when not oversized. -/
lemma padSk_length (sk : List Nat) (h : sk.length ≤ SK_SIZE) :
    (padSk sk).length = SK_SIZE := by
  rw [padSk_eq_append sk h]
  simp
  omega

/-- Successfully decoded hex pairs decode two characters per byte. -/
lemma decodePairs_len : ∀ (cs : List Char) (bs : List Nat),
    decodePairs cs = some bs → 2 * bs.length = cs.length
  | [], bs, h => by
    simp [decodePairs] at h
    simp [← h]
  | [_], bs, h => by
    simp [decodePairs] at h
  | a :: b :: rest, bs, h => by
    unfold decodePairs at h
    rcases ha : hexVal? a with _ | hi <;> rw [ha] at h
    · exact absurd h (by simp)
    rcases hb : hexVal? b with _ | lo <;> rw [hb] at h
    · exact absurd h (by simp)
    rcases hr : decodePairs rest with _ | bs0 <;> rw [hr] at h
    · exact absurd h (by simp)
    have ih := decodePairs_len rest bs0 hr
    simp at h
    rw [← h]
    simp
    omega

/-- A successful 16-byte hex decode yields exactly 16 bytes. -/
lemma fromHexArr16_length (s : String) (bs : List Nat)
    (h : fromHexArr16 s = .ok bs) : bs.length = 16 := by
  unfold fromHexArr16 at h
  split at h
  · split at h
    · rename_i bs0 hd
      have hlen := decodePairs_len s.data bs0 hd
      simp at h
      subst h
      omega
    · exact absurd h (by simp)
  · exact absurd h (by simp)

/-- Shape of a successful optional hex decode. -/
lemma optionFromHex_ok (s : Option String) (r : Option (List Nat))
    (h : optionFromHex s = .ok r) :
    (s = none ∧ r = none) ∨
    (∃ str k, s = some str ∧ fromHexArr16 str = .ok k ∧ r = some k) := by
  unfold optionFromHex at h
  split at h
  · simp at h
    exact Or.inl ⟨rfl, h.symm⟩
  · rename_i str
    split at h
    · exact absurd h (by simp)
    · rename_i k hd
      simp at h
      exact Or.inr ⟨str, k, rfl, hd, h.symm⟩

/-- Shape of a successful SA2 preprocessing stage. -/
lemma processSa2_ok (ext : Externals) (w : World) (o : Option IOType)
    (r : Option (List Nat)) (h : processSa2 ext w o = .ok r) :
    (o = none ∧ r = none) ∨
    (∃ f raw comp, o = some f ∧ w.readResult f = .ok raw ∧
      ext.deflateFast raw = .ok comp ∧ comp.length ≤ U32_MAX ∧
      r = some (padAlign ext.blockSize comp)) := by
  unfold processSa2 at h
  split at h
  · simp at h
    exact Or.inl ⟨rfl, h.symm⟩
  · rename_i f
    split at h
    · exact absurd h (by simp)
    · rename_i raw hr
      split at h
      · exact absurd h (by simp)
      · rename_i comp hd
        split at h
        · exact absurd h (by simp)
        · rename_i hlen
          simp at h
          exact Or.inr ⟨f, raw, comp, rfl, hr, hd, Nat.le_of_not_lt hlen, h.symm⟩

/-- mkHeaderE never produces the panic marker. -/
lemma mkHeaderE_ne_panic (ext : Externals) (key iv appKey keyIv : List Nat)
    (len cid : Nat) :
    mkHeaderE ext key iv appKey keyIv len cid ≠ .error .panicked := by
  unfold mkHeaderE
  rcases ext.cmdHeadToBuf ⟨key, iv, appKey, keyIv, u32cast len, cid⟩ with e | buf <;> simp

/-- Shape of a successful SA2 header stage. -/
lemma mkSa2Cmd_ok (ext : Externals) (args : Args) (v2 : Virage2)
    (sa2v : Option (List Nat)) (r : Option (List Nat))
    (h : mkSa2Cmd ext args v2 sa2v = .ok r) :
    (sa2v = none ∧ r = none) ∨
    (∃ sa k2 i2 ki2 c2 cmd, sa2v = some sa ∧ args.sa2_key = some k2 ∧
      args.sa2_iv = some i2 ∧ args.sa2_key_iv = some ki2 ∧
      args.sa2_cid = some c2 ∧
      mkHeaderE ext k2 i2 v2.boot_app_key ki2 sa.length c2 = .ok cmd ∧
      r = some cmd) := by
  unfold mkSa2Cmd at h
  split at h
  · simp at h
    exact Or.inl ⟨rfl, h.symm⟩
  · rename_i sa
    split at h
    · exact absurd h (by simp)
    rename_i k2 hk
    split at h
    · exact absurd h (by simp)
    rename_i i2 hi
    split at h
    · exact absurd h (by simp)
    rename_i ki2 hki
    split at h
    · exact absurd h (by simp)
    rename_i c2 hc
    split at h
    · exact absurd h (by simp)
    rename_i cmd hm
    simp at h
    exact Or.inr ⟨sa, k2, i2, ki2, c2, cmd, rfl, hk, hi, hki, hc, hm, h.symm⟩

/-- Shape of a successful SA2 encryption stage. -/
lemma encSa2_ok (ext : Externals) (args : Args) (sa2v : Option (List Nat))
    (r : Option (List Nat)) (h : encSa2 ext args sa2v = .ok r) :
    (sa2v = none ∧ r = none) ∨
    (∃ sa k2 i2, sa2v = some sa ∧ args.sa2_key = some k2 ∧
      args.sa2_iv = some i2 ∧ r = some (ext.aesEncCbc sa k2 i2)) := by
  unfold encSa2 at h
  split at h
  · simp at h
    exact Or.inl ⟨rfl, h.symm⟩
  · rename_i sa
    split at h
    · exact absurd h (by simp)
    rename_i k2 hk
    split at h
    · exact absurd h (by simp)
    rename_i i2 hi
    simp at h
    exact Or.inr ⟨sa, k2, i2, rfl, hk, hi, h.symm⟩

/-- Complete characterization of a successful build: every stage
succeeded, both size checks passed, and the output is the concatenation
assembled at src/lib.rs lines 142-150, with the SA2 sections present
exactly when SA2 was supplied. -/
lemma buildBytes_ok_elim (ext : Externals) (w : World) (args : Args)
    (out : List Nat) (h : buildBytes ext w args = .ok out) :
    ∃ v2buf v2 brbuf kk ki skRaw sa1Raw sa2v hdr1,
      w.readResult args.virage2 = .ok v2buf ∧
      ext.virage2ReadFromBuf v2buf = .ok v2 ∧
      w.readResult args.bootrom = .ok brbuf ∧
      ext.bootromKeys brbuf = .ok (kk, ki) ∧
      w.readResult args.sk = .ok skRaw ∧ skRaw.length ≤ SK_SIZE ∧
      w.readResult args.sa1 = .ok sa1Raw ∧ sa1Raw.length ≤ U32_MAX ∧
      processSa2 ext w args.sa2 = .ok sa2v ∧
      mkHeaderE ext args.sa1_key args.sa1_iv v2.boot_app_key args.sa1_key_iv
        (padAlign ext.blockSize sa1Raw).length args.sa1_cid = .ok hdr1 ∧
      ((sa2v = none ∧
        out = ext.aesEncCbc (padSk skRaw) kk ki ++ hdr1 ++
          ext.aesEncCbc (padAlign ext.blockSize sa1Raw) args.sa1_key args.sa1_iv) ∨
       (∃ sa2p k2 i2 ki2 c2 hdr2,
         sa2v = some sa2p ∧ args.sa2_key = some k2 ∧ args.sa2_iv = some i2 ∧
         args.sa2_key_iv = some ki2 ∧ args.sa2_cid = some c2 ∧
         mkHeaderE ext k2 i2 v2.boot_app_key ki2 sa2p.length c2 = .ok hdr2 ∧
         out = ext.aesEncCbc (padSk skRaw) kk ki ++ hdr1 ++
           ext.aesEncCbc (padAlign ext.blockSize sa1Raw) args.sa1_key args.sa1_iv ++
           hdr2 ++ ext.aesEncCbc sa2p k2 i2)) := by
  simp only [buildBytes] at h
  split at h
  · exact absurd h (by simp)
  rename_i v2buf hv2buf
  split at h
  · exact absurd h (by simp)
  rename_i v2 hv2
  split at h
  · exact absurd h (by simp)
  rename_i brbuf hbr
  split at h
  · exact absurd h (by simp)
  rename_i kk ki hkeys
  split at h
  · exact absurd h (by simp)
  rename_i skRaw hskr
  split at h
  · exact absurd h (by simp)
  rename_i hskle
  split at h
  · exact absurd h (by simp)
  rename_i sa1Raw hsa1r
  split at h
  · exact absurd h (by simp)
  rename_i hsa1le
  split at h
  · exact absurd h (by simp)
  rename_i sa2v hsa2v
  split at h
  · exact absurd h (by simp)
  rename_i hdr1 hhdr1
  split at h
  · exact absurd h (by simp)
  rename_i sa2cmd hsa2cmd
  split at h
  · exact absurd h (by simp)
  rename_i sa2enc hsa2enc
  refine ⟨v2buf, v2, brbuf, kk, ki, skRaw, sa1Raw, sa2v, hdr1,
    hv2buf, hv2, hbr, hkeys, hskr, Nat.le_of_not_lt hskle,
    hsa1r, Nat.le_of_not_lt hsa1le, hsa2v, hhdr1, ?_⟩
  split at h
  · rcases encSa2_ok ext args sa2v none hsa2enc with ⟨hn, _⟩ | ⟨sa, k2, i2, _, _, _, hr⟩
    · injection h with h2
      exact Or.inl ⟨hn, h2.symm⟩
    · exact absurd hr (by simp)
  · rename_i s2
    split at h
    · exact absurd h (by simp)
    rename_i c2
    rcases encSa2_ok ext args sa2v (some s2) hsa2enc with ⟨_, hr⟩ | ⟨sa, k2, i2, hs, hk, hi, hr⟩
    · exact absurd hr (by simp)
    rcases mkSa2Cmd_ok ext args v2 sa2v (some c2) hsa2cmd with ⟨hn, _⟩ |
      ⟨sa', k2', i2', ki2', c2', cmd, hs', hk', hi', hki', hc', hm', hr'⟩
    · rw [hn] at hs
      exact absurd hs (by simp)
    injection h with h2
    have hs2 : s2 = ext.aesEncCbc sa k2 i2 := Option.some_inj.mp hr
    have hcmd : c2 = cmd := Option.some_inj.mp hr'
    have hsa2 : sa = sa' := Option.some_inj.mp (hs.symm.trans hs')
    have hk2 : k2 = k2' := Option.some_inj.mp (hk.symm.trans hk')
    have hi2 : i2 = i2' := Option.some_inj.mp (hi.symm.trans hi')
    refine Or.inr ⟨sa', k2', i2', ki2', c2', cmd, hs', hk', hi', hki', hc', hm', ?_⟩
    rw [← h2, hs2, hcmd, hsa2, hk2, hi2]

/-- Claim C1: the output image is the exact ordered concatenation:
encrypted SK, then SA1 command header, then encrypted SA1, then (only if
SA2 was supplied) SA2 command header followed by encrypted SA2; when SA2
is omitted the output is exactly the first three parts and nothing
follows them. -/
theorem c1_output_is_exact_concatenation (ext : Externals) (w : World)
    (args : Args) (out : List Nat) (h : buildBytes ext w args = .ok out) :
    ∃ v2buf v2 brbuf kk ki skRaw sa1Raw hdr1,
      w.readResult args.virage2 = .ok v2buf ∧
      ext.virage2ReadFromBuf v2buf = .ok v2 ∧
      w.readResult args.bootrom = .ok brbuf ∧
      ext.bootromKeys brbuf = .ok (kk, ki) ∧
      w.readResult args.sk = .ok skRaw ∧
      w.readResult args.sa1 = .ok sa1Raw ∧
      mkHeaderE ext args.sa1_key args.sa1_iv v2.boot_app_key args.sa1_key_iv
        (padAlign ext.blockSize sa1Raw).length args.sa1_cid = .ok hdr1 ∧
      (args.sa2 = none →
        out = ext.aesEncCbc (padSk skRaw) kk ki ++ hdr1 ++
          ext.aesEncCbc (padAlign ext.blockSize sa1Raw) args.sa1_key args.sa1_iv) ∧
      (∀ f2, args.sa2 = some f2 →
        ∃ raw comp k2 i2 ki2 c2 hdr2,
          w.readResult f2 = .ok raw ∧ ext.deflateFast raw = .ok comp ∧
          args.sa2_key = some k2 ∧ args.sa2_iv = some i2 ∧
          args.sa2_key_iv = some ki2 ∧ args.sa2_cid = some c2 ∧
          mkHeaderE ext k2 i2 v2.boot_app_key ki2
            (padAlign ext.blockSize comp).length c2 = .ok hdr2 ∧
          out = ext.aesEncCbc (padSk skRaw) kk ki ++ hdr1 ++
            ext.aesEncCbc (padAlign ext.blockSize sa1Raw) args.sa1_key args.sa1_iv ++
            hdr2 ++ ext.aesEncCbc (padAlign ext.blockSize comp) k2 i2) := by
  obtain ⟨v2buf, v2, brbuf, kk, ki, skRaw, sa1Raw, sa2v, hdr1, p1, p2, p3, p4,
    p5, _, p7, _, p9, p10, hcase⟩ := buildBytes_ok_elim ext w args out h
  refine ⟨v2buf, v2, brbuf, kk, ki, skRaw, sa1Raw, hdr1,
    p1, p2, p3, p4, p5, p7, p10, ?_, ?_⟩
  · intro h0
    rcases hcase with ⟨_, hout⟩ | ⟨sa2p, k2, i2, ki2, c2, hdr2, hsv, _, _, _, _, _, _⟩
    · exact hout
    · rcases processSa2_ok ext w args.sa2 sa2v p9 with ⟨_, hn⟩ | ⟨f, raw, comp, ho, _⟩
      · rw [hn] at hsv
        exact absurd hsv (by simp)
      · rw [h0] at ho
        exact absurd ho (by simp)
  · intro f2 hf2
    rcases hcase with ⟨hn, _⟩ | ⟨sa2p, k2, i2, ki2, c2, hdr2, hsv, hk, hi, hki, hc, hm, hout⟩
    · rcases processSa2_ok ext w args.sa2 sa2v p9 with ⟨ho, _⟩ | ⟨f, raw, comp, ho, _, _, _, hpad⟩
      · rw [hf2] at ho
        exact absurd ho (by simp)
      · rw [hn] at hpad
        exact absurd hpad (by simp)
    · rcases processSa2_ok ext w args.sa2 sa2v p9 with ⟨_, hn⟩ | ⟨f, raw, comp, ho, hread, hdefl, _, hpad⟩
      · rw [hn] at hsv
        exact absurd hsv (by simp)
      · have hf : f = f2 := Option.some_inj.mp (ho.symm.trans hf2)
        have hp : sa2p = padAlign ext.blockSize comp :=
          Option.some_inj.mp (hsv.symm.trans hpad)
        subst hf
        rw [hp] at hm hout
        exact ⟨raw, comp, k2, i2, ki2, c2, hdr2, hread, hdefl, hk, hi, hki, hc, hm, hout⟩

/-- Witness for C1 at a concrete successful build. -/
theorem c1_witness :
    buildBytes extW wW argsNoSa2 = .ok [0, 0, 0, 0] ∧
    (∃ v2buf v2 brbuf kk ki skRaw sa1Raw hdr1,
      wW.readResult argsNoSa2.virage2 = .ok v2buf ∧
      extW.virage2ReadFromBuf v2buf = .ok v2 ∧
      wW.readResult argsNoSa2.bootrom = .ok brbuf ∧
      extW.bootromKeys brbuf = .ok (kk, ki) ∧
      wW.readResult argsNoSa2.sk = .ok skRaw ∧
      wW.readResult argsNoSa2.sa1 = .ok sa1Raw ∧
      mkHeaderE extW argsNoSa2.sa1_key argsNoSa2.sa1_iv v2.boot_app_key
        argsNoSa2.sa1_key_iv (padAlign extW.blockSize sa1Raw).length
        argsNoSa2.sa1_cid = .ok hdr1 ∧
      (argsNoSa2.sa2 = none →
        [0, 0, 0, 0] = extW.aesEncCbc (padSk skRaw) kk ki ++ hdr1 ++
          extW.aesEncCbc (padAlign extW.blockSize sa1Raw) argsNoSa2.sa1_key
            argsNoSa2.sa1_iv) ∧
      (∀ f2, argsNoSa2.sa2 = some f2 →
        ∃ raw comp k2 i2 ki2 c2 hdr2,
          wW.readResult f2 = .ok raw ∧ extW.deflateFast raw = .ok comp ∧
          argsNoSa2.sa2_key = some k2 ∧ argsNoSa2.sa2_iv = some i2 ∧
          argsNoSa2.sa2_key_iv = some ki2 ∧ argsNoSa2.sa2_cid = some c2 ∧
          mkHeaderE extW k2 i2 v2.boot_app_key ki2
            (padAlign extW.blockSize comp).length c2 = .ok hdr2 ∧
          [0, 0, 0, 0] = extW.aesEncCbc (padSk skRaw) kk ki ++ hdr1 ++
            extW.aesEncCbc (padAlign extW.blockSize sa1Raw) argsNoSa2.sa1_key
              argsNoSa2.sa1_iv ++ hdr2 ++
            extW.aesEncCbc (padAlign extW.blockSize comp) k2 i2)) :=
  ⟨by decide, c1_output_is_exact_concatenation extW wW argsNoSa2 [0, 0, 0, 0] (by decide)⟩

/-- Claim C2: for every SK payload of length at most 64 KiB, the padded
SK passed to encryption is exactly 64 KiB long, with the original bytes
as a prefix and zero bytes as the suffix; for every SK payload longer
than 64 KiB, build fails with a ComponentTooLong error carrying the SK
role, the actual length and the 64 KiB maximum, and never truncates. -/
theorem c2_sk_padding_and_limit (ext : Externals) (w : World) (args : Args)
    (v2buf : List Nat) (v2 : Virage2) (brbuf kk ki skRaw : List Nat)
    (h1 : w.readResult args.virage2 = .ok v2buf)
    (h2 : ext.virage2ReadFromBuf v2buf = .ok v2)
    (h3 : w.readResult args.bootrom = .ok brbuf)
    (h4 : ext.bootromKeys brbuf = .ok (kk, ki))
    (h5 : w.readResult args.sk = .ok skRaw) :
    (skRaw.length ≤ SK_SIZE →
      (padSk skRaw).length = SK_SIZE ∧
      (padSk skRaw).take skRaw.length = skRaw ∧
      padSk skRaw = skRaw ++ List.replicate (SK_SIZE - skRaw.length) 0) ∧
    (SK_SIZE < skRaw.length →
      buildBytes ext w args = .error (.tooLong .Sk skRaw.length SK_SIZE)) := by
  constructor
  · intro hle
    refine ⟨padSk_length skRaw hle, ?_, padSk_eq_append skRaw hle⟩
    rw [padSk_eq_append skRaw hle]
    simp
  · intro hgt
    simp only [buildBytes, h1, h2, h3, h4, h5]
    rw [if_pos hgt]

/-- Witness for C2 at a concrete empty SK payload. -/
theorem c2_witness :
    wW.readResult argsNoSa2.sk = .ok [] ∧
    ((List.length ([] : List Nat) ≤ SK_SIZE →
      (padSk []).length = SK_SIZE ∧
      (padSk []).take (List.length ([] : List Nat)) = [] ∧
      padSk [] = [] ++ List.replicate (SK_SIZE - List.length ([] : List Nat)) 0) ∧
    (SK_SIZE < List.length ([] : List Nat) →
      buildBytes extW wW argsNoSa2 =
        .error (.tooLong .Sk (List.length ([] : List Nat)) SK_SIZE))) :=
  ⟨by decide, c2_sk_padding_and_limit extW wW argsNoSa2 [] ⟨[]⟩ [] [] [] []
    (by decide) (by decide) (by decide) (by decide) (by decide)⟩

/-- Claim C3: for every SA1 payload that passes validation, the padded
SA1 has length equal to the smallest multiple of the block size that is
at least the original length, with the original bytes as a prefix and
zero bytes filling the remainder. -/
theorem c3_sa1_padding_smallest_multiple (b : Nat) (l : List Nat)
    (hb : 0 < b) (hval : l.length ≤ U32_MAX) :
    (padAlign b l).length = nextMultipleOf l.length b ∧
    b ∣ (padAlign b l).length ∧
    l.length ≤ (padAlign b l).length ∧
    (∀ m, b ∣ m → l.length ≤ m → (padAlign b l).length ≤ m) ∧
    (padAlign b l).take l.length = l ∧
    padAlign b l = l ++ List.replicate ((padAlign b l).length - l.length) 0 := by
  have hlen := padAlign_length b l
  refine ⟨hlen, ?_, ?_, ?_, ?_, ?_⟩
  · rw [hlen]
    exact dvd_nextMultipleOf l.length b hb
  · rw [hlen]
    exact le_nextMultipleOf l.length b
  · intro m hdvd hm
    rw [hlen]
    exact nextMultipleOf_le l.length b m hb hdvd hm
  · rw [padAlign_eq_append]
    simp
  · rw [hlen]
    exact padAlign_eq_append b l

/-- Witness for C3 at a concrete three-byte payload and block size 4. -/
theorem c3_witness :
    0 < 4 ∧ ([1, 2, 3] : List Nat).length ≤ U32_MAX ∧
    ((padAlign 4 [1, 2, 3]).length = nextMultipleOf ([1, 2, 3] : List Nat).length 4 ∧
    4 ∣ (padAlign 4 [1, 2, 3]).length ∧
    ([1, 2, 3] : List Nat).length ≤ (padAlign 4 [1, 2, 3]).length ∧
    (∀ m, 4 ∣ m → ([1, 2, 3] : List Nat).length ≤ m → (padAlign 4 [1, 2, 3]).length ≤ m) ∧
    (padAlign 4 [1, 2, 3]).take ([1, 2, 3] : List Nat).length = [1, 2, 3] ∧
    padAlign 4 [1, 2, 3] =
      [1, 2, 3] ++ List.replicate ((padAlign 4 [1, 2, 3]).length - ([1, 2, 3] : List Nat).length) 0) :=
  ⟨by decide, by decide,
    c3_sa1_padding_smallest_multiple 4 [1, 2, 3] (by decide) (by decide)⟩

/-- Forward evaluation of the SA2 stage when the compressed form fits. -/
lemma processSa2_some_ok (ext : Externals) (w : World) (f2 : IOType)
    (raw comp : List Nat) (hread : w.readResult f2 = .ok raw)
    (hdefl : ext.deflateFast raw = .ok comp) (hle : comp.length ≤ U32_MAX) :
    processSa2 ext w (some f2) = .ok (some (padAlign ext.blockSize comp)) := by
  simp only [processSa2, hread, hdefl]
  rw [if_neg (Nat.not_lt.mpr hle)]

/-- Forward evaluation of the SA2 stage when the compressed form is too
long. -/
lemma processSa2_some_err (ext : Externals) (w : World) (f2 : IOType)
    (raw comp : List Nat) (hread : w.readResult f2 = .ok raw)
    (hdefl : ext.deflateFast raw = .ok comp) (hgt : U32_MAX < comp.length) :
    processSa2 ext w (some f2) = .error (.tooLong .Sa2 comp.length U32_MAX) := by
  simp only [processSa2, hread, hdefl]
  rw [if_pos hgt]

/-- Claim C4: when SA2 is supplied, its raw bytes are first
DEFLATE-compressed, and it is the compressed form (not the original)
that undergoes the 2^32 - 1 size validation, the block-alignment
padding, and supplies the length recorded in the SA2 header; SA1 is
never compressed (the build outcome does not depend on the compressor at
all when SA2 is absent). -/
theorem c4_sa2_compressed_form_used (ext : Externals) (w : World)
    (args : Args) (f2 : IOType) (raw comp : List Nat)
    (hsa2 : args.sa2 = some f2)
    (hread : w.readResult f2 = .ok raw)
    (hdefl : ext.deflateFast raw = .ok comp) :
    (U32_MAX < comp.length →
      processSa2 ext w args.sa2 = .error (.tooLong .Sa2 comp.length U32_MAX) ∧
      ∀ out, buildBytes ext w args ≠ .ok out) ∧
    (comp.length ≤ U32_MAX →
      processSa2 ext w args.sa2 = .ok (some (padAlign ext.blockSize comp)) ∧
      ∀ out, buildBytes ext w args = .ok out →
        ∃ v2buf v2 brbuf kk ki skRaw sa1Raw hdr1 k2 i2 ki2 c2 hdr2,
          w.readResult args.virage2 = .ok v2buf ∧
          ext.virage2ReadFromBuf v2buf = .ok v2 ∧
          w.readResult args.bootrom = .ok brbuf ∧
          ext.bootromKeys brbuf = .ok (kk, ki) ∧
          w.readResult args.sk = .ok skRaw ∧
          w.readResult args.sa1 = .ok sa1Raw ∧
          mkHeaderE ext args.sa1_key args.sa1_iv v2.boot_app_key
            args.sa1_key_iv (padAlign ext.blockSize sa1Raw).length
            args.sa1_cid = .ok hdr1 ∧
          args.sa2_key = some k2 ∧ args.sa2_iv = some i2 ∧
          args.sa2_key_iv = some ki2 ∧ args.sa2_cid = some c2 ∧
          mkHeaderE ext k2 i2 v2.boot_app_key ki2
            (padAlign ext.blockSize comp).length c2 = .ok hdr2 ∧
          out = ext.aesEncCbc (padSk skRaw) kk ki ++ hdr1 ++
            ext.aesEncCbc (padAlign ext.blockSize sa1Raw) args.sa1_key args.sa1_iv ++
            hdr2 ++ ext.aesEncCbc (padAlign ext.blockSize comp) k2 i2) ∧
    (∀ d1 d2 (w2 : World) (a2 : Args), a2.sa2 = none →
      buildBytes { ext with deflateFast := d1 } w2 a2 =
        buildBytes { ext with deflateFast := d2 } w2 a2) := by
  refine ⟨?_, ?_, ?_⟩
  · intro hgt
    have hperr : processSa2 ext w args.sa2 = .error (.tooLong .Sa2 comp.length U32_MAX) := by
      rw [hsa2]
      exact processSa2_some_err ext w f2 raw comp hread hdefl hgt
    refine ⟨hperr, ?_⟩
    intro out hok
    obtain ⟨_, _, _, _, _, _, _, sa2v, _, _, _, _, _, _, _, _, _, p9, _, _⟩ :=
      buildBytes_ok_elim ext w args out hok
    rw [hperr] at p9
    exact absurd p9 (by simp)
  · intro hle
    have hpok : processSa2 ext w args.sa2 = .ok (some (padAlign ext.blockSize comp)) := by
      rw [hsa2]
      exact processSa2_some_ok ext w f2 raw comp hread hdefl hle
    refine ⟨hpok, ?_⟩
    intro out hok
    obtain ⟨v2buf, v2, brbuf, kk, ki, skRaw, sa1Raw, sa2v, hdr1, p1, p2, p3, p4,
      p5, _, p7, _, p9, p10, hcase⟩ := buildBytes_ok_elim ext w args out hok
    have hsv : sa2v = some (padAlign ext.blockSize comp) := by
      rw [hpok] at p9
      injection p9 with p9e
      exact p9e.symm
    rcases hcase with ⟨hn, _⟩ | ⟨sa2p, k2, i2, ki2, c2, hdr2, hsv2, hk, hi, hki, hc, hm, hout⟩
    · rw [hn] at hsv
      exact absurd hsv (by simp)
    · have hp : sa2p = padAlign ext.blockSize comp :=
        Option.some_inj.mp (hsv2.symm.trans hsv)
      rw [hp] at hm hout
      exact ⟨v2buf, v2, brbuf, kk, ki, skRaw, sa1Raw, hdr1, k2, i2, ki2, c2, hdr2,
        p1, p2, p3, p4, p5, p7, p10, hk, hi, hki, hc, hm, hout⟩
  · intro d1 d2 w2 a2 hnone
    simp only [buildBytes, processSa2, hnone]
    rfl

/-- Witness for C4 at a concrete SA2 input compressing to the empty
list. -/
theorem c4_witness :
    argsWithSa2.sa2 = some (IOType.File ("sa2")) ∧
    wW.readResult (IOType.File ("sa2")) = .ok [] ∧
    extW.deflateFast [] = .ok [] ∧
    ((U32_MAX < List.length ([] : List Nat) →
      processSa2 extW wW argsWithSa2.sa2 =
        .error (.tooLong .Sa2 (List.length ([] : List Nat)) U32_MAX) ∧
      ∀ out, buildBytes extW wW argsWithSa2 ≠ .ok out) ∧
    (List.length ([] : List Nat) ≤ U32_MAX →
      processSa2 extW wW argsWithSa2.sa2 = .ok (some (padAlign extW.blockSize [])) ∧
      ∀ out, buildBytes extW wW argsWithSa2 = .ok out →
        ∃ v2buf v2 brbuf kk ki skRaw sa1Raw hdr1 k2 i2 ki2 c2 hdr2,
          wW.readResult argsWithSa2.virage2 = .ok v2buf ∧
          extW.virage2ReadFromBuf v2buf = .ok v2 ∧
          wW.readResult argsWithSa2.bootrom = .ok brbuf ∧
          extW.bootromKeys brbuf = .ok (kk, ki) ∧
          wW.readResult argsWithSa2.sk = .ok skRaw ∧
          wW.readResult argsWithSa2.sa1 = .ok sa1Raw ∧
          mkHeaderE extW argsWithSa2.sa1_key argsWithSa2.sa1_iv v2.boot_app_key
            argsWithSa2.sa1_key_iv (padAlign extW.blockSize sa1Raw).length
            argsWithSa2.sa1_cid = .ok hdr1 ∧
          argsWithSa2.sa2_key = some k2 ∧ argsWithSa2.sa2_iv = some i2 ∧
          argsWithSa2.sa2_key_iv = some ki2 ∧ argsWithSa2.sa2_cid = some c2 ∧
          mkHeaderE extW k2 i2 v2.boot_app_key ki2
            (padAlign extW.blockSize []).length c2 = .ok hdr2 ∧
          out = extW.aesEncCbc (padSk skRaw) kk ki ++ hdr1 ++
            extW.aesEncCbc (padAlign extW.blockSize sa1Raw) argsWithSa2.sa1_key
              argsWithSa2.sa1_iv ++ hdr2 ++
            extW.aesEncCbc (padAlign extW.blockSize []) k2 i2) ∧
    (∀ d1 d2 (w2 : World) (a2 : Args), a2.sa2 = none →
      buildBytes { extW with deflateFast := d1 } w2 a2 =
        buildBytes { extW with deflateFast := d2 } w2 a2)) :=
  ⟨by decide, by decide, by decide,
    c4_sa2_compressed_form_used extW wW argsWithSa2 (IOType.File ("sa2")) [] []
      (by decide) (by decide) (by decide)⟩

/-- Counterexample to claim C5 as stated: an SA1 payload of raw length
2^32 - 1 passes the validation of src/lib.rs line 68, yet its
block-aligned padded length is 2^32 (shown here for block size 16384,
and similarly for any block size above 1 dividing 2^32), which does not
fit the 32-bit header field: the cast performed at src/lib.rs line 107
wraps the recorded length to 0. -/
theorem c5_counterexample :
    (List.replicate (2 ^ 32 - 1) (0 : Nat)).length ≤ U32_MAX ∧
    (padAlign 16384 (List.replicate (2 ^ 32 - 1) (0 : Nat))).length = 2 ^ 32 ∧
    u32cast (padAlign 16384 (List.replicate (2 ^ 32 - 1) (0 : Nat))).length = 0 ∧
    u32cast (padAlign 16384 (List.replicate (2 ^ 32 - 1) (0 : Nat))).length ≠
      (padAlign 16384 (List.replicate (2 ^ 32 - 1) (0 : Nat))).length := by
  have hpad : (padAlign 16384 (List.replicate (2 ^ 32 - 1) (0 : Nat))).length = 2 ^ 32 := by
    rw [padAlign_length, List.length_replicate]
    decide
  refine ⟨?_, hpad, ?_, ?_⟩
  · rw [List.length_replicate]
    decide
  · rw [hpad]
    decide
  · rw [hpad]
    decide

/-- Claim C5 (amended): for every SA1 payload accepted by validation
(raw length at most 2^32 - 1) whose block-aligned padded length still
fits the 32-bit field, the payload length written into the SA1 command
header equals the post-padding length, without wraparound or
truncation; when the padded length reaches 2^32 (possible only for raw
lengths within one block of 2^32) the stored u32 wraps. -/
theorem c5_amended_header_length_fits (b : Nat) (l : List Nat) (hb : 0 < b)
    (hval : l.length ≤ U32_MAX)
    (hfit : (padAlign b l).length ≤ U32_MAX) :
    u32cast (padAlign b l).length = (padAlign b l).length ∧
    (padAlign b l).length = nextMultipleOf l.length b := by
  refine ⟨?_, padAlign_length b l⟩
  unfold u32cast
  refine Nat.mod_eq_of_lt ?_
  have h32 : U32_MAX < 2 ^ 32 := by decide
  omega

/-- Witness for the amended C5 at a concrete three-byte payload. -/
theorem c5_witness :
    0 < 4 ∧ ([1, 2, 3] : List Nat).length ≤ U32_MAX ∧
    (padAlign 4 [1, 2, 3]).length ≤ U32_MAX ∧
    (u32cast (padAlign 4 [1, 2, 3]).length = (padAlign 4 [1, 2, 3]).length ∧
    (padAlign 4 [1, 2, 3]).length = nextMultipleOf ([1, 2, 3] : List Nat).length 4) :=
  ⟨by decide, by decide, by decide,
    c5_amended_header_length_fits 4 [1, 2, 3] (by decide) (by decide) (by decide)⟩

/-- Claim C6: if any stage of the pure pipeline fails (descriptor
parse, key derivation, component read, size validation, compression, or
header serialization), build returns that error and leaves the output
sink exactly as it was: nothing is ever written. -/
theorem c6_failure_writes_nothing (ext : Externals) (w : World) (args : Args)
    (s : Sink) (e : BuildError) (h : buildBytes ext w args = .error e) :
    build ext w args s = (.error e, s) := by
  unfold build
  rw [h]

/-- Witness for C6 at a concrete failing read. -/
theorem c6_witness :
    buildBytes extW wErr argsNoSa2 = .error (.external ("boom")) ∧
    build extW wErr argsNoSa2 ⟨[]⟩ = (.error (.external ("boom")), ⟨[]⟩) :=
  ⟨by decide, c6_failure_writes_nothing extW wErr argsNoSa2 ⟨[]⟩
    (.external ("boom")) (by decide)⟩

/-- Claim C7: for each present application component, the emitted
header section is exactly the fixed total block size and equals the
header encoder output, followed by the constant compatibility filler
blob, followed by zero bytes: the combination of encoder output and
filler is only ever zero-extended to the fixed size, never shortened or
altered.  The hypothesis that encoder output plus filler fit within the
block is modelled from the spec, which stipulates the combined
header+filler is zero-padded to the fixed total block size. -/
theorem c7_header_is_encoder_filler_zeros (ext : Externals)
    (key iv appKey keyIv : List Nat) (len cid : Nat) (buf : List Nat)
    (hbuf : ext.cmdHeadToBuf ⟨key, iv, appKey, keyIv, u32cast len, cid⟩ = .ok buf)
    (hfit : buf.length + ext.dummyCertsCrls.length ≤ ext.blockSize) :
    mkHeaderE ext key iv appKey keyIv len cid =
      .ok (buf ++ ext.dummyCertsCrls ++
        List.replicate (ext.blockSize - (buf.length + ext.dummyCertsCrls.length)) 0) ∧
    (∀ hdr, mkHeaderE ext key iv appKey keyIv len cid = .ok hdr →
      hdr.length = ext.blockSize ∧
      hdr.take (buf.length + ext.dummyCertsCrls.length) = buf ++ ext.dummyCertsCrls) := by
  have hlen : (buf ++ ext.dummyCertsCrls).length =
      buf.length + ext.dummyCertsCrls.length := by simp
  have hmain : mkHeaderE ext key iv appKey keyIv len cid =
      .ok (buf ++ ext.dummyCertsCrls ++
        List.replicate (ext.blockSize - (buf.length + ext.dummyCertsCrls.length)) 0) := by
    simp only [mkHeaderE, hbuf]
    rw [listResize_of_le _ _ _ (by rw [hlen]; exact hfit), hlen]
  refine ⟨hmain, ?_⟩
  intro hdr h
  rw [hmain] at h
  injection h with h2
  constructor
  · rw [← h2]
    simp
    omega
  · rw [← h2, ← hlen, List.take_left]

/-- Witness for C7 at concrete trivializing externals. -/
theorem c7_witness :
    extW.cmdHeadToBuf ⟨BLANK_KEY, BLANK_IV, [], BLANK_IV, u32cast 0, 0⟩ = .ok [] ∧
    (List.length ([] : List Nat) + extW.dummyCertsCrls.length ≤ extW.blockSize) ∧
    (mkHeaderE extW BLANK_KEY BLANK_IV [] BLANK_IV 0 0 =
      .ok ([] ++ extW.dummyCertsCrls ++
        List.replicate (extW.blockSize -
          (List.length ([] : List Nat) + extW.dummyCertsCrls.length)) 0) ∧
    (∀ hdr, mkHeaderE extW BLANK_KEY BLANK_IV [] BLANK_IV 0 0 = .ok hdr →
      hdr.length = extW.blockSize ∧
      hdr.take (List.length ([] : List Nat) + extW.dummyCertsCrls.length) =
        [] ++ extW.dummyCertsCrls)) :=
  ⟨by decide, by decide,
    c7_header_is_encoder_filler_zeros extW BLANK_KEY BLANK_IV [] BLANK_IV 0 0 []
      (by decide) (by decide)⟩

/-- Claim C8 evidence: supplying the SA2 header-key IV without SA2 is
NOT rejected: the declared clap constraints accept the command line,
and the conversion succeeds, yielding Args with no SA2 yet a populated
sa2_key_iv, because src/args.rs lines 147-149 omit the requires(sa2)
attribute that its sibling fields sa2_key (line 140) and sa2_iv
(line 144) both carry.  The sibling constraints and the sa2-requires-cid
constraint are enforced, as the remaining conjuncts show. -/
theorem c8_sa2_key_iv_accepted_without_sa2 :
    cliRequiresOk cliKeyIvNoSa2 = true ∧
    parseArgs cliKeyIvNoSa2 = .ok argsKeyIvNoSa2 ∧
    argsKeyIvNoSa2.sa2 = none ∧
    argsKeyIvNoSa2.sa2_key_iv = some BLANK_IV ∧
    cliRequiresOk { cliKeyIvNoSa2 with sa2_key_iv := none, sa2_key := some ("00") } = false ∧
    cliRequiresOk { cliKeyIvNoSa2 with sa2_key_iv := none, sa2_iv := some ("00") } = false ∧
    cliRequiresOk { cliKeyIvNoSa2 with sa2_key_iv := none, sa2 := some ("s2") } = false := by
  refine ⟨by decide, by decide, by decide, by decide, by decide, by decide, by decide⟩

/-- Resolution of an SA1 key/IV field: default applied on omission,
decoded length is always 16. -/
lemma resolvedD_spec (s : Option String) (dec : Option (List Nat))
    (blank : List Nat) (hb : blank.length = 16)
    (h : optionFromHex s = .ok dec) :
    (dec.getD blank).length = 16 ∧ (s = none → dec.getD blank = blank) := by
  rcases optionFromHex_ok s dec h with ⟨hs, hd⟩ | ⟨str, k, hs, hk, hd⟩ <;> subst hd
  · exact ⟨hb, fun _ => rfl⟩
  · refine ⟨fromHexArr16_length str k hk, ?_⟩
    intro h0
    rw [h0] at hs
    exact absurd hs (by simp)

/-- Resolution of an SA2 key/IV field: any populated value is 16 bytes,
omission with SA2 present yields the blank value, and SA2 presence
forces the field to be populated. -/
lemma resolvedSa2_spec (sa2 : Option IOType) (s : Option String)
    (dec : Option (List Nat)) (blank : List Nat) (hb : blank.length = 16)
    (h : optionFromHex s = .ok dec) :
    (∀ k, (if sa2.isSome then (if dec.isNone then some blank else dec) else dec) =
        some k → k.length = 16) ∧
    (sa2.isSome = true → s = none →
      (if sa2.isSome then (if dec.isNone then some blank else dec) else dec) =
        some blank) ∧
    (sa2.isSome = true →
      (if sa2.isSome then (if dec.isNone then some blank else dec) else dec).isSome =
        true) := by
  rcases optionFromHex_ok s dec h with ⟨hs, hd⟩ | ⟨str, k0, hs, hk, hd⟩ <;> subst hd <;>
    rcases hh : sa2.isSome
  · simp
  · simp [hb]
  · simp
    exact fromHexArr16_length str k0 hk
  · simp
    constructor
    · exact fromHexArr16_length str k0 hk
    · intro h0
      rw [h0] at hs
      exact absurd hs (by simp)

/-- Claim C9: every key, IV, or header-IV field that the user omits is
resolved to exactly 16 zero bytes (for the SA2 fields: whenever SA2 is
present, so that the field reaches the build pipeline at all), and every
field the user supplies as hex text is resolved to exactly 16 bytes or
rejected at decode time, so every key/IV reaching the build pipeline is
exactly 16 bytes. -/
theorem c9_key_iv_fields_are_16_bytes (c : Cli) (args : Args)
    (h : tryFromCli c = .ok args) :
    args.sa1_key.length = 16 ∧ args.sa1_iv.length = 16 ∧
    args.sa1_key_iv.length = 16 ∧
    (c.sa1_key = none → args.sa1_key = BLANK_KEY) ∧
    (c.sa1_iv = none → args.sa1_iv = BLANK_IV) ∧
    (c.sa1_key_iv = none → args.sa1_key_iv = BLANK_IV) ∧
    (∀ k, args.sa2_key = some k → k.length = 16) ∧
    (∀ k, args.sa2_iv = some k → k.length = 16) ∧
    (∀ k, args.sa2_key_iv = some k → k.length = 16) ∧
    (args.sa2.isSome = true → c.sa2_key = none → args.sa2_key = some BLANK_KEY) ∧
    (args.sa2.isSome = true → c.sa2_iv = none → args.sa2_iv = some BLANK_IV) ∧
    (args.sa2.isSome = true → c.sa2_key_iv = none → args.sa2_key_iv = some BLANK_IV) ∧
    (args.sa2.isSome = true → args.sa2_key.isSome = true ∧
      args.sa2_iv.isSome = true ∧ args.sa2_key_iv.isSome = true) := by
  have hbk : BLANK_KEY.length = 16 := by decide
  have hbi : BLANK_IV.length = 16 := by decide
  simp only [tryFromCli] at h
  split at h
  · exact absurd h (by simp)
  rename_i k1? hk1
  split at h
  · exact absurd h (by simp)
  rename_i i1? hi1
  split at h
  · exact absurd h (by simp)
  rename_i ki1? hki1
  split at h
  · exact absurd h (by simp)
  rename_i k2? hk2
  split at h
  · exact absurd h (by simp)
  rename_i i2? hi2
  split at h
  · exact absurd h (by simp)
  rename_i ki2? hki2
  injection h with h2
  subst h2
  dsimp only
  obtain ⟨l1, o1⟩ := resolvedD_spec c.sa1_key k1? BLANK_KEY hbk hk1
  obtain ⟨l2, o2⟩ := resolvedD_spec c.sa1_iv i1? BLANK_IV hbi hi1
  obtain ⟨l3, o3⟩ := resolvedD_spec c.sa1_key_iv ki1? BLANK_IV hbi hki1
  obtain ⟨a1, b1, p1⟩ :=
    resolvedSa2_spec (c.sa2.map IOType.input) c.sa2_key k2? BLANK_KEY hbk hk2
  obtain ⟨a2, b2, p2⟩ :=
    resolvedSa2_spec (c.sa2.map IOType.input) c.sa2_iv i2? BLANK_IV hbi hi2
  obtain ⟨a3, b3, p3⟩ :=
    resolvedSa2_spec (c.sa2.map IOType.input) c.sa2_key_iv ki2? BLANK_IV hbi hki2
  exact ⟨l1, l2, l3, o1, o2, o3, a1, a2, a3, b1, b2, b3,
    fun hs => ⟨p1 hs, p2 hs, p3 hs⟩⟩

/-- Witness for C9: the hypothesis holds at cliW9 and the conclusion
follows by the theorem. -/
theorem c9_witness :
    tryFromCli cliW9 = .ok argsW9 ∧
    (argsW9.sa1_key.length = 16 ∧ argsW9.sa1_iv.length = 16 ∧
    argsW9.sa1_key_iv.length = 16 ∧
    (cliW9.sa1_key = none → argsW9.sa1_key = BLANK_KEY) ∧
    (cliW9.sa1_iv = none → argsW9.sa1_iv = BLANK_IV) ∧
    (cliW9.sa1_key_iv = none → argsW9.sa1_key_iv = BLANK_IV) ∧
    (∀ k, argsW9.sa2_key = some k → k.length = 16) ∧
    (∀ k, argsW9.sa2_iv = some k → k.length = 16) ∧
    (∀ k, argsW9.sa2_key_iv = some k → k.length = 16) ∧
    (argsW9.sa2.isSome = true → cliW9.sa2_key = none → argsW9.sa2_key = some BLANK_KEY) ∧
    (argsW9.sa2.isSome = true → cliW9.sa2_iv = none → argsW9.sa2_iv = some BLANK_IV) ∧
    (argsW9.sa2.isSome = true → cliW9.sa2_key_iv = none → argsW9.sa2_key_iv = some BLANK_IV) ∧
    (argsW9.sa2.isSome = true → argsW9.sa2_key.isSome = true ∧
      argsW9.sa2_iv.isSome = true ∧ argsW9.sa2_key_iv.isSome = true)) :=
  ⟨by decide, c9_key_iv_fields_are_16_bytes cliW9 argsW9 (by decide)⟩

/-- The SA2 preprocessing stage never produces the panic marker. -/
lemma processSa2_ne_panic (ext : Externals) (w : World) (o : Option IOType) :
    processSa2 ext w o ≠ .error BuildError.panicked := by
  intro h
  unfold processSa2 at h
  split at h
  · simp at h
  · split at h
    · simp at h
    · split at h
      · simp at h
      · split at h
        · simp at h
        · simp at h

/-- A panic in the SA2 header stage means SA2 was processed but one of
the four unwrapped fields was absent. -/
lemma mkSa2Cmd_panic_elim (ext : Externals) (args : Args) (v2 : Virage2)
    (sa2v : Option (List Nat))
    (h : mkSa2Cmd ext args v2 sa2v = .error BuildError.panicked) :
    sa2v.isSome = true ∧
    (args.sa2_key = none ∨ args.sa2_iv = none ∨ args.sa2_key_iv = none ∨
      args.sa2_cid = none) := by
  unfold mkSa2Cmd at h
  split at h
  · exact absurd h (by simp)
  rename_i sa
  refine ⟨rfl, ?_⟩
  split at h
  · rename_i hk
    exact Or.inl hk
  rename_i k2 hk
  split at h
  · rename_i hi
    exact Or.inr (Or.inl hi)
  rename_i i2 hi
  split at h
  · rename_i hki
    exact Or.inr (Or.inr (Or.inl hki))
  rename_i ki2 hki
  split at h
  · rename_i hc
    exact Or.inr (Or.inr (Or.inr hc))
  rename_i c2 hc
  split at h
  · rename_i e hm
    injection h with he
    rw [he] at hm
    exact absurd hm (mkHeaderE_ne_panic ext k2 i2 v2.boot_app_key ki2 sa.length c2)
  · exact absurd h (by simp)

/-- A panic in the SA2 encryption stage means SA2 was processed but the
key or the IV was absent. -/
lemma encSa2_panic_elim (ext : Externals) (args : Args)
    (sa2v : Option (List Nat))
    (h : encSa2 ext args sa2v = .error BuildError.panicked) :
    sa2v.isSome = true ∧ (args.sa2_key = none ∨ args.sa2_iv = none) := by
  unfold encSa2 at h
  split at h
  · exact absurd h (by simp)
  rename_i sa
  refine ⟨rfl, ?_⟩
  split at h
  · rename_i hk
    exact Or.inl hk
  rename_i k2 hk
  split at h
  · rename_i hi
    exact Or.inr hi
  rename_i i2 hi
  exact absurd h (by simp)

/-- A panicking build means SA2 was supplied but one of the optional
SA2 fields that build unwraps was absent. -/
lemma buildBytes_panic_elim (ext : Externals) (w : World) (args : Args)
    (h : buildBytes ext w args = .error BuildError.panicked) :
    args.sa2.isSome = true ∧
    (args.sa2_key = none ∨ args.sa2_iv = none ∨ args.sa2_key_iv = none ∨
      args.sa2_cid = none) := by
  have sa2_some_of : ∀ sa2v : Option (List Nat),
      processSa2 ext w args.sa2 = .ok sa2v → sa2v.isSome = true →
      args.sa2.isSome = true := by
    intro sa2v hp hs
    rcases processSa2_ok ext w args.sa2 sa2v hp with ⟨_, hn⟩ | ⟨f, _, _, ho, _⟩
    · rw [hn] at hs
      exact absurd hs (by simp)
    · rw [ho]
      rfl
  simp only [buildBytes] at h
  split at h
  · exact absurd h (by simp)
  rename_i v2buf hv2buf
  split at h
  · exact absurd h (by simp)
  rename_i v2 hv2
  split at h
  · exact absurd h (by simp)
  rename_i brbuf hbr
  split at h
  · exact absurd h (by simp)
  rename_i kk ki hkeys
  split at h
  · exact absurd h (by simp)
  rename_i skRaw hskr
  split at h
  · exact absurd h (by simp)
  rename_i hskle
  split at h
  · exact absurd h (by simp)
  rename_i sa1Raw hsa1r
  split at h
  · exact absurd h (by simp)
  rename_i hsa1le
  split at h
  · rename_i e hperr
    injection h with he
    rw [he] at hperr
    exact absurd hperr (processSa2_ne_panic ext w args.sa2)
  rename_i sa2v hsa2v
  split at h
  · rename_i e hherr
    injection h with he
    rw [he] at hherr
    exact absurd hherr (mkHeaderE_ne_panic ext args.sa1_key args.sa1_iv
      v2.boot_app_key args.sa1_key_iv (padAlign ext.blockSize sa1Raw).length
      args.sa1_cid)
  rename_i hdr1 hhdr1
  split at h
  · rename_i e hcerr
    injection h with he
    rw [he] at hcerr
    obtain ⟨hs, hdisj⟩ := mkSa2Cmd_panic_elim ext args v2 sa2v hcerr
    exact ⟨sa2_some_of sa2v hsa2v hs, hdisj⟩
  rename_i sa2cmd hsa2cmd
  split at h
  · rename_i e heerr
    injection h with he
    rw [he] at heerr
    obtain ⟨hs, hdisj⟩ := encSa2_panic_elim ext args sa2v heerr
    refine ⟨sa2_some_of sa2v hsa2v hs, ?_⟩
    rcases hdisj with hk | hi
    · exact Or.inl hk
    · exact Or.inr (Or.inl hi)
  rename_i sa2enc hsa2enc
  split at h
  · exact absurd h (by simp)
  rename_i s2
  split at h
  · rcases encSa2_ok ext args sa2v (some s2) hsa2enc with ⟨_, hr⟩ | ⟨sa, k2, i2, hsv, _, _, _⟩
    · exact absurd hr (by simp)
    rcases mkSa2Cmd_ok ext args v2 sa2v none hsa2cmd with ⟨hn, _⟩ |
      ⟨_, _, _, _, _, _, _, _, _, _, _, _, hr'⟩
    · rw [hn] at hsv
      exact absurd hsv (by simp)
    · exact absurd hr' (by simp)
  · exact absurd h (by simp)

/-- The conversion guarantees: the SA2 presence and CID are carried over
verbatim, and SA2 presence forces the three optional SA2 key/IV fields
to be populated. -/
lemma tryFromCli_sa2_fields (c : Cli) (args : Args)
    (h : tryFromCli c = .ok args) :
    args.sa2 = c.sa2.map IOType.input ∧ args.sa2_cid = c.sa2_cid ∧
    (args.sa2.isSome = true → args.sa2_key.isSome = true ∧
      args.sa2_iv.isSome = true ∧ args.sa2_key_iv.isSome = true) := by
  have hbk : BLANK_KEY.length = 16 := by decide
  have hbi : BLANK_IV.length = 16 := by decide
  simp only [tryFromCli] at h
  split at h
  · exact absurd h (by simp)
  rename_i k1? hk1
  split at h
  · exact absurd h (by simp)
  rename_i i1? hi1
  split at h
  · exact absurd h (by simp)
  rename_i ki1? hki1
  split at h
  · exact absurd h (by simp)
  rename_i k2? hk2
  split at h
  · exact absurd h (by simp)
  rename_i i2? hi2
  split at h
  · exact absurd h (by simp)
  rename_i ki2? hki2
  injection h with h2
  subst h2
  dsimp only
  refine ⟨rfl, rfl, ?_⟩
  intro hs
  exact ⟨(resolvedSa2_spec (c.sa2.map IOType.input) c.sa2_key k2? BLANK_KEY hbk hk2).2.2 hs,
    (resolvedSa2_spec (c.sa2.map IOType.input) c.sa2_iv i2? BLANK_IV hbi hi2).2.2 hs,
    (resolvedSa2_spec (c.sa2.map IOType.input) c.sa2_key_iv ki2? BLANK_IV hbi hki2).2.2 hs⟩

/-- A successful parse passed the clap constraints and the conversion. -/
lemma parseArgs_ok_elim (c : Cli) (args : Args) (h : parseArgs c = .ok args) :
    cliRequiresOk c = true ∧ tryFromCli c = .ok args := by
  unfold parseArgs at h
  split at h
  · rename_i hreq
    split at h
    · exact absurd h (by simp)
    · rename_i a ha
      injection h with h2
      subst h2
      exact ⟨hreq, ha⟩
  · exact absurd h (by simp)

/-- Claim C10: in every Args value produced by converting parsed
command-line arguments, if the SA2 input is present then the SA2 key,
SA2 IV, SA2 header-key IV and SA2 CID fields are all present, so the
unwrap calls on these optional fields inside build cannot panic: the
build never evaluates to the panic marker. -/
theorem c10_sa2_unwraps_cannot_panic (c : Cli) (args : Args)
    (h : parseArgs c = .ok args) (ext : Externals) (w : World) :
    buildBytes ext w args ≠ .error BuildError.panicked := by
  intro hp
  obtain ⟨hreq, htry⟩ := parseArgs_ok_elim c args h
  obtain ⟨hsa2eq, hcid, hfields⟩ := tryFromCli_sa2_fields c args htry
  obtain ⟨hsome, hdisj⟩ := buildBytes_panic_elim ext w args hp
  have hkey := (hfields hsome).1
  have hiv := (hfields hsome).2.1
  have hkiv := (hfields hsome).2.2
  have hcsa2 : c.sa2.isSome = true := by
    rw [hsa2eq] at hsome
    rcases hc2 : c.sa2 with _ | v
    · rw [hc2] at hsome
      simp at hsome
    · rfl
  have hccid : c.sa2_cid.isSome = true := by
    rcases hcc : c.sa2_cid.isSome
    · rw [cliRequiresOk, hcsa2, hcc] at hreq
      simp at hreq
    · rfl
  rcases hdisj with hk | hi | hki | hc
  · rw [hk] at hkey
    exact absurd hkey (by simp)
  · rw [hi] at hiv
    exact absurd hiv (by simp)
  · rw [hki] at hkiv
    exact absurd hkiv (by simp)
  · rw [hcid.symm.trans hc] at hccid
    exact absurd hccid (by simp)

/-- Witness for C10: the hypothesis holds at cliW10 and the build on the
resulting Args can never panic. -/
theorem c10_witness :
    parseArgs cliW10 = .ok argsWithSa2 ∧
    buildBytes extW wW argsWithSa2 ≠ .error BuildError.panicked :=
  ⟨by decide, c10_sa2_unwraps_cannot_panic cliW10 argsWithSa2 (by decide) extW wW⟩

end Makesksa
